import Mathlib

/-!
Shallow embedding of the grype v6 database installation curator
(grype/db/v6/installation/curator.go).

Times and durations are modelled as integers (nanoseconds); filesystem state
is modelled explicitly: the directory at the canonical active path is an
optional `Dir` value carrying the state of its descriptor sidecar file, the
result of hashing its payload file, and the state of the last-update-check
marker file.  External collaborators (the distribution client, the archive
extractor, the low-level reader constructor) are passed in as parameters,
mirroring the interfaces the Go code consumes.
-/

namespace Grype

/-- db.ModelVersion: the schema model number supported by this version of the
application (the v6 package). -/
def ModelVersion : Nat := 6

/-- db.VulnerabilityDBFileName: the payload file name inside an artifact
directory. -/
def VulnerabilityDBFileName : String := "vulnerability.db"

/-- Modelled from the spec: the descriptor's schema version string is an
external type (db.SchemaVersion, outside the excerpt); the curator only uses
its Model() method, which maps it to a model number when possible.  We
abstract the version by the result of that partial mapping. -/
structure SchemaVer where
  model : Option Nat

/-- db.Description: the JSON sidecar describing an artifact (build time,
schema version, content checksum). -/
structure Description where
  built : Int
  schemaVersion : SchemaVer
  checksum : String

/-- The state of the descriptor sidecar file inside an artifact directory:
absent, unreadable (exists-check or open fails), malformed (JSON decode
fails), or present and well-formed. -/
inductive DescFile
  | absent
  | unreadable
  | malformed
  | ok (d : Description)

/-- The state of the last_update_check marker file inside the active artifact
directory: absent (first run), unreadable (open or read fails), unparsable
(not an RFC3339 timestamp), zero (parses to the zero time, rejected as
"empty update check timestamp"), or a recorded timestamp. -/
inductive MarkerFile
  | absent
  | unreadable
  | unparsable
  | zero
  | ok (t : Int)

/-- An artifact directory: descriptor file state, the result of hashing its
payload file (error, or the actual digest), and its marker file state. -/
structure Dir where
  descFile : DescFile
  payloadHash : Except Unit String
  marker : MarkerFile

/-- The filesystem state the curator mutates: the directory at the canonical
active path (DBDirectoryPath), if any. -/
structure FS where
  active : Option Dir

/-- Config from curator.go: root directory, validation switches, maximum
artifact age, maximum update-check frequency. -/
structure Config where
  DBRootDir : String
  ValidateAge : Bool
  ValidateChecksum : Bool
  MaxAllowedBuiltAge : Int
  UpdateCheckMaxFrequency : Int

/-- Config.DBDirectoryPath: root plus the model version subdirectory. -/
def DBDirectoryPath (cfg : Config) : String :=
  cfg.DBRootDir ++ "/" ++ toString ModelVersion

/-- Errors produced by descriptor reading and validation, carrying the data
the corresponding Go error messages interpolate. -/
inductive DBError
  | metadataParse (dir : String)
  | metadataNotFound (dir : String)
  | hashFailed (path : String)
  | badChecksum (path expected actual : String)
  | unsupportedVersion (got want : Nat)
  | noMetadata
  | stale (age maxAge : Int)
deriving DecidableEq

/-- Errors produced by activate: integrity validation failure, failure to
purge the existing database, or rename failure. -/
inductive ActivateError
  | validation (e : DBError)
  | purgeFailed
  | renameFailed
deriving DecidableEq

/-- Errors surfaced by Update. -/
inductive UpdateError
  | readCurrentFailed
  | downloadFailed
  | activateFailed (e : ActivateError)
deriving DecidableEq

/-- Errors surfaced by Import. -/
inductive ImportError
  | tempDirFailed
  | unarchiveFailed
  | activateFailed (e : ActivateError)
deriving DecidableEq

/-- Errors surfaced by Reader. -/
inductive ReaderError
  | newReaderFailed
  | validation (e : DBError)

/-- readDatabaseDescription: nil descriptor and nil error when the sidecar is
absent; an error when the exists-check or open fails or the JSON is
malformed; the decoded descriptor otherwise.  A wholly absent directory
behaves as an absent sidecar. -/
def readDatabaseDescription (od : Option Dir) : Except Unit (Option Description) :=
  match od with
  | none => .ok none
  | some dir =>
    match dir.descFile with
    | .absent => .ok none
    | .unreadable => .error ()
    | .malformed => .error ()
    | .ok d => .ok (some d)

/-- The payload-hash result of an optional directory (hashing inside an
absent directory fails). -/
def payloadHashOf (od : Option Dir) : Except Unit String :=
  match od with
  | none => .error ()
  | some dir => dir.payloadHash

/-- Modelled from the spec: file.ValidateByHash (internal/file, outside the
excerpt) recomputes the payload file content hash and compares it to the
expected checksum, returning (valid, actualHash) or an I/O error. -/
def ValidateByHash (payloadHash : Except Unit String) (expected : String) :
    Except Unit (Bool × String) :=
  match payloadHash with
  | .error e => .error e
  | .ok actual => .ok (actual == expected, actual)

/-- The checksum step of validateIntegrity: when ValidateChecksum is set,
hash the payload file and compare against the descriptor checksum. -/
def checksumCheck (cfg : Config) (dbDirPath : String) (od : Option Dir)
    (metadata : Description) : Except DBError Unit :=
  if cfg.ValidateChecksum then
    let dbPath := dbDirPath ++ "/" ++ VulnerabilityDBFileName
    match ValidateByHash (payloadHashOf od) metadata.checksum with
    | .error _ => .error (.hashFailed dbPath)
    | .ok (valid, actualHash) =>
      if valid then .ok () else .error (.badChecksum dbPath metadata.checksum actualHash)
  else .ok ()

/-- curator.validateIntegrity: read the descriptor (parse failure or absence
is fatal, naming the directory), optionally check the payload checksum, then
map the schema version to a model number and require it to equal the
supported model.  Returns the validated descriptor on success. -/
def validateIntegrity (cfg : Config) (dbDirPath : String) (od : Option Dir) :
    Except DBError Description :=
  match readDatabaseDescription od with
  | .error _ => .error (.metadataParse dbDirPath)
  | .ok none => .error (.metadataNotFound dbDirPath)
  | .ok (some metadata) =>
    match checksumCheck cfg dbDirPath od metadata with
    | .error e => .error e
    | .ok _ =>
      let gotModel := metadata.schemaVersion.model.getD 0
      if metadata.schemaVersion.model.isNone || gotModel != ModelVersion then
        .error (.unsupportedVersion gotModel ModelVersion)
      else
        .ok metadata

/-- curator.ensureNotStale: nil metadata is fatal; with age validation
disabled always ok; otherwise the age now - built must not exceed
MaxAllowedBuiltAge (strict comparison), else fail carrying both durations. -/
def ensureNotStale (cfg : Config) (now : Int) (m : Option Description) :
    Except DBError Unit :=
  match m with
  | none => .error .noMetadata
  | some m =>
    if !cfg.ValidateAge then .ok ()
    else
      let age := now - m.built
      if age > cfg.MaxAllowedBuiltAge then .error (.stale age cfg.MaxAllowedBuiltAge)
      else .ok ()

/-- curator.validate: integrity validation of the active directory followed
by the staleness check on the returned descriptor. -/
def validate (cfg : Config) (now : Int) (fs : FS) : Except DBError Unit :=
  match validateIntegrity cfg (DBDirectoryPath cfg) fs.active with
  | .error e => .error e
  | .ok metadata => ensureNotStale cfg now (some metadata)

/-- curator.Reader: construct the low-level reader (db.NewReader, an external
collaborator whose result is passed in), then return it together with the
result of validate().  Note the Go code returns the handle s even when
validate() fails: return s, c.validate(). -/
def Reader {H : Type} (newReaderResult : Except Unit H) (cfg : Config)
    (now : Int) (fs : FS) : Option H × Option ReaderError :=
  match newReaderResult with
  | .error _ => (none, some .newReaderFailed)
  | .ok s =>
    (some s,
      match validate cfg now fs with
      | .error e => some (.validation e)
      | .ok _ => none)

/-- The marker-file state seen at DBDirectoryPath/last_update_check: absent
when the active directory itself is absent. -/
def markerOf (fs : FS) : MarkerFile :=
  match fs.active with
  | none => .absent
  | some d => d.marker

/-- curator.durationSinceUpdateCheck: none when the marker file does not
exist (first run); an error when it cannot be opened, read, parsed, or
parses to the zero time; otherwise the elapsed time now - lastCheck. -/
def durationSinceUpdateCheck (now : Int) (m : MarkerFile) :
    Except Unit (Option Int) :=
  match m with
  | .absent => .ok none
  | .unreadable => .error ()
  | .unparsable => .error ()
  | .zero => .error ()
  | .ok t => .ok (some (now - t))

/-- curator.isUpdateCheckAllowed: true when no max frequency is configured;
true (fail open) when reading or parsing the marker fails; true when there
was no previous check; otherwise true iff the elapsed time strictly exceeds
UpdateCheckMaxFrequency. -/
def isUpdateCheckAllowed (cfg : Config) (now : Int) (m : MarkerFile) : Bool :=
  if cfg.UpdateCheckMaxFrequency == 0 then true
  else
    match durationSinceUpdateCheck now m with
    | .error _ => true
    | .ok none => true
    | .ok (some elapsed) => decide (elapsed > cfg.UpdateCheckMaxFrequency)

/-- curator.setLastSuccessfulUpdateCheck: overwrite the marker in the active
directory with the current time; if the file cannot be opened or written
(modelled by writeOk = false, or by the directory being absent) the failure
is logged and swallowed, leaving the state unchanged.  The Go function
returns nothing: a write failure can never surface to the caller. -/
def setLastSuccessfulUpdateCheck (writeOk : Bool) (now : Int) (fs : FS) : FS :=
  match fs.active, writeOk with
  | some d, true => ⟨some { d with marker := .ok now }⟩
  | _, _ => fs

/-- curator.Delete: recursively remove the active directory (deleteOk models
whether RemoveAll succeeds). -/
def Delete (deleteOk : Bool) (fs : FS) : Except Unit FS :=
  if deleteOk then .ok ⟨none⟩ else .error ()

/-- curator.activate: validate the staged directory's integrity; on failure
return the error without touching the filesystem.  Otherwise, if an active
directory exists, remove it, then rename the staged directory onto the
canonical active path (renameOk models whether os.Rename succeeds). -/
def activate (cfg : Config) (deleteOk renameOk : Bool) (stagedPath : String)
    (staged : Dir) (fs : FS) : Except ActivateError Unit × FS :=
  match validateIntegrity cfg stagedPath (some staged) with
  | .error e => (.error (.validation e), fs)
  | .ok _ =>
    match fs.active with
    | some _ =>
      match Delete deleteOk fs with
      | .error _ => (.error .purgeFailed, fs)
      | .ok fs1 =>
        if renameOk then (.ok (), ⟨some staged⟩) else (.error .renameFailed, fs1)
    | none =>
      if renameOk then (.ok (), ⟨some staged⟩) else (.error .renameFailed, fs)

/-- The result of one Update call: the return values (changed, err), the
resulting filesystem state, and ghost observations of the call's external
effects: the argument passed to the client's IsUpdateAvailable (none when it
was never invoked), whether Download was invoked, whether
setLastSuccessfulUpdateCheck was invoked, and whether the staged download
directory was removed. -/
structure UpdateOutcome where
  changed : Bool
  err : Option UpdateError
  fs : FS
  currentPassed : Option (Option Description)
  downloadInvoked : Bool
  recordedCheck : Bool
  stagedRemoved : Bool

/-- curator.Update: throttle-gated refresh.  Denied throttle returns
(false, nil) at once.  Then read the current descriptor (failure is fatal);
ask the client for a candidate (a client error is logged, not fatal; the
candidate archive is modelled by its description); with no candidate, record
the check timestamp only when the client reported no error, and return
(false, nil); with a candidate, download it (failure fatal), activate it
(failure fatal, staged dir left in place), and on success record the check
timestamp and return (true, nil). -/
def update (cfg : Config) (now : Int)
    (client : Option Description → Option Description × Bool)
    (download : Description → Except Unit (String × Dir))
    (deleteOk renameOk writeOk : Bool) (fs : FS) : UpdateOutcome :=
  if !isUpdateCheckAllowed cfg now (markerOf fs) then
    { changed := false, err := none, fs := fs, currentPassed := none,
      downloadInvoked := false, recordedCheck := false, stagedRemoved := false }
  else
    match readDatabaseDescription fs.active with
    | .error _ =>
      { changed := false, err := some .readCurrentFailed, fs := fs,
        currentPassed := none, downloadInvoked := false,
        recordedCheck := false, stagedRemoved := false }
    | .ok current =>
      match client current with
      | (none, checkErr) =>
        if !checkErr then
          { changed := false, err := none,
            fs := setLastSuccessfulUpdateCheck writeOk now fs,
            currentPassed := some current, downloadInvoked := false,
            recordedCheck := true, stagedRemoved := false }
        else
          { changed := false, err := none, fs := fs,
            currentPassed := some current, downloadInvoked := false,
            recordedCheck := false, stagedRemoved := false }
      | (some upd, _) =>
        match download upd with
        | .error _ =>
          { changed := false, err := some .downloadFailed, fs := fs,
            currentPassed := some current, downloadInvoked := true,
            recordedCheck := false, stagedRemoved := false }
        | .ok (destPath, staged) =>
          match activate cfg deleteOk renameOk destPath staged fs with
          | (.error e, fsA) =>
            { changed := false, err := some (.activateFailed e), fs := fsA,
              currentPassed := some current, downloadInvoked := true,
              recordedCheck := false, stagedRemoved := false }
          | (.ok _, fsA) =>
            { changed := true, err := none,
              fs := setLastSuccessfulUpdateCheck writeOk now fsA,
              currentPassed := some current, downloadInvoked := true,
              recordedCheck := true, stagedRemoved := false }

/-- The result of one Import call: the returned error, the resulting
filesystem state, and ghost observations: whether the temp staging directory
was created, and whether removeAllOrLog was invoked on it. -/
structure ImportOutcome where
  err : Option ImportError
  fs : FS
  tempCreated : Bool
  tempRemoved : Bool

/-- The temp staging path Import creates under the root. -/
def importTempPath (cfg : Config) : String :=
  cfg.DBRootDir ++ "/tmp-v" ++ toString ModelVersion ++ "-import"

/-- curator.Import: create a temp staging directory under the root (mkTempOk
models os.MkdirTemp), unarchive the archive into it (a failure returns with
the directory left in place), then activate it; on activation failure the
staging directory is removed (removeAllOrLog) before returning. -/
def Import (cfg : Config) (mkTempOk : Bool)
    (unarchiveResult : Except Unit Dir) (deleteOk renameOk : Bool)
    (fs : FS) : ImportOutcome :=
  if !mkTempOk then
    { err := some .tempDirFailed, fs := fs, tempCreated := false, tempRemoved := false }
  else
    match unarchiveResult with
    | .error _ =>
      { err := some .unarchiveFailed, fs := fs, tempCreated := true, tempRemoved := false }
    | .ok staged =>
      match activate cfg deleteOk renameOk (importTempPath cfg) staged fs with
      | (.error e, fsA) =>
        { err := some (.activateFailed e), fs := fsA, tempCreated := true, tempRemoved := true }
      | (.ok _, fsA) =>
        { err := none, fs := fsA, tempCreated := true, tempRemoved := false }

/-! Concrete fixtures used by witnesses and counterexamples. -/

/-- A well-formed descriptor: supported model, checksum "h1". -/
def descW : Description := ⟨0, ⟨some 6⟩, "h1"⟩

/-- A directory whose descriptor and payload hash agree. -/
def goodDir : Dir := ⟨.ok descW, .ok "h1", .absent⟩

/-- A directory with no descriptor file (fails integrity validation). -/
def badDir : Dir := ⟨.absent, .error (), .absent⟩

/-- A sample configuration with both validations enabled. -/
def cfgW : Config := ⟨"r", true, true, 100, 100⟩

/-- A filesystem whose active directory is well-formed. -/
def fsGood : FS := ⟨some goodDir⟩

/-- A sample client reporting no candidate and no error. -/
def clientW : Option Description → Option Description × Bool := fun _ => (none, false)

/-- A sample download that always fails. -/
def downloadW : Description → Except Unit (String × Dir) := fun _ => .error ()

/-- C1: when integrity validation of the staged directory fails, activate
returns that error and leaves the filesystem state (hence the directory at
the canonical active path) exactly as it was; in particular a previously
valid active artifact is still present and still passes its own integrity
check afterward. -/
theorem activate_integrity_failure_frame (cfg : Config) (deleteOk renameOk : Bool)
    (stagedPath : String) (staged : Dir) (fs : FS) (e : DBError)
    (h : validateIntegrity cfg stagedPath (some staged) = .error e) :
    activate cfg deleteOk renameOk stagedPath staged fs = (.error (.validation e), fs) ∧
    ∀ d r, fs.active = some d →
      validateIntegrity cfg (DBDirectoryPath cfg) (some d) = .ok r →
      ((activate cfg deleteOk renameOk stagedPath staged fs).2.active = some d ∧
       validateIntegrity cfg (DBDirectoryPath cfg)
         ((activate cfg deleteOk renameOk stagedPath staged fs).2.active) = .ok r) := by
  have hact : activate cfg deleteOk renameOk stagedPath staged fs =
      (.error (.validation e), fs) := by
    simp [activate, h]
  refine ⟨hact, fun d r hd hv => ?_⟩
  rw [hact]
  exact ⟨hd, by rw [hd]; exact hv⟩

/-- Witness for C1 at a concrete staged directory missing its descriptor and
a concrete valid active artifact. -/
theorem activate_integrity_failure_frame_witness :
    validateIntegrity cfgW "s" (some badDir) = .error (.metadataNotFound "s") ∧
    fsGood.active = some goodDir ∧
    validateIntegrity cfgW (DBDirectoryPath cfgW) (some goodDir) = .ok descW ∧
    ((activate cfgW true true "s" badDir fsGood).2.active = some goodDir ∧
     validateIntegrity cfgW (DBDirectoryPath cfgW)
       ((activate cfgW true true "s" badDir fsGood).2.active) = .ok descW) :=
  ⟨rfl, rfl, rfl,
    (activate_integrity_failure_frame cfgW true true "s" badDir fsGood _ rfl).2
      goodDir descW rfl rfl⟩

/-- C2 counterexample: with an empty active directory (so validate() fails
with metadata-not-found), Reader returns the validation error AND the read
handle obtained from db.NewReader: the handle component is some (), not
none, refuting "no read handle is returned to the caller". -/
theorem reader_counterexample :
    (Reader (Except.ok () : Except Unit Unit) cfgW 0 ⟨none⟩).2 =
      some (.validation (.metadataNotFound (DBDirectoryPath cfgW))) ∧
    (Reader (Except.ok () : Except Unit Unit) cfgW 0 ⟨none⟩).1 = some () :=
  ⟨rfl, rfl⟩

/-- C2 amended: when validate() of the active artifact fails, Reader does
return an error, but the read handle produced by db.NewReader is returned
alongside the error rather than withheld. -/
theorem reader_validation_failure_returns_error {H : Type} (h : H)
    (cfg : Config) (now : Int) (fs : FS) (e : DBError)
    (hv : validate cfg now fs = .error e) :
    Reader (Except.ok h) cfg now fs = (some h, some (.validation e)) := by
  simp [Reader, hv]

/-- Witness for the amended C2 at a concrete failing state. -/
theorem reader_validation_failure_returns_error_witness :
    validate cfgW 0 ⟨none⟩ = .error (.metadataNotFound (DBDirectoryPath cfgW)) ∧
    Reader (Except.ok () : Except Unit Unit) cfgW 0 ⟨none⟩ =
      (some (), some (.validation (.metadataNotFound (DBDirectoryPath cfgW)))) :=
  ⟨rfl, reader_validation_failure_returns_error () cfgW 0 ⟨none⟩ _ rfl⟩

/-- C3: isUpdateCheckAllowed is true whenever UpdateCheckMaxFrequency is
zero, whenever the marker is absent, and whenever the marker cannot be read
or parsed (including the rejected zero timestamp) — fail open; otherwise it
is true iff the elapsed time now - lastChecked strictly exceeds
UpdateCheckMaxFrequency. -/
theorem isUpdateCheckAllowed_characterization (cfg : Config) (now : Int)
    (m : MarkerFile) :
    isUpdateCheckAllowed cfg now m = true ↔
      (cfg.UpdateCheckMaxFrequency = 0 ∨ m = .absent ∨ m = .unreadable ∨
       m = .unparsable ∨ m = .zero ∨
       ∃ t, m = .ok t ∧ now - t > cfg.UpdateCheckMaxFrequency) := by
  by_cases h : cfg.UpdateCheckMaxFrequency = 0 <;>
    cases m <;>
      simp [isUpdateCheckAllowed, durationSinceUpdateCheck, h]

/-- C4: when the throttle denies the check, Update returns (false, nil)
immediately: the client is never invoked (no IsUpdateAvailable, no
Download), the check is not recorded, and the filesystem state is unchanged. -/
theorem update_throttled_is_noop (cfg : Config) (now : Int)
    (client : Option Description → Option Description × Bool)
    (download : Description → Except Unit (String × Dir))
    (deleteOk renameOk writeOk : Bool) (fs : FS)
    (h : isUpdateCheckAllowed cfg now (markerOf fs) = false) :
    update cfg now client download deleteOk renameOk writeOk fs =
      { changed := false, err := none, fs := fs, currentPassed := none,
        downloadInvoked := false, recordedCheck := false,
        stagedRemoved := false } := by
  simp [update, h]

/-- Witness for C4: a marker recorded at the current instant with a 100ns
max frequency denies the check; the resulting Update call is a no-op. -/
theorem update_throttled_is_noop_witness :
    isUpdateCheckAllowed cfgW 0 (markerOf ⟨some ⟨.ok descW, .ok "h1", .ok 0⟩⟩) = false ∧
    update cfgW 0 clientW downloadW true true true ⟨some ⟨.ok descW, .ok "h1", .ok 0⟩⟩ =
      { changed := false, err := none, fs := ⟨some ⟨.ok descW, .ok "h1", .ok 0⟩⟩,
        currentPassed := none, downloadInvoked := false,
        recordedCheck := false, stagedRemoved := false } :=
  ⟨rfl, update_throttled_is_noop cfgW 0 clientW downloadW true true true
    ⟨some ⟨.ok descW, .ok "h1", .ok 0⟩⟩ rfl⟩

/-- C5: Update records the last-check timestamp exactly when the check cycle
produced no local error: when the client reports no candidate with no error
(returning (false, nil)), and after a candidate is downloaded and
successfully activated (returning (true, nil)); it does not record it when
the client check errored (still returning (false, nil)), nor when download
or activation fails (returning (false, err) with the error propagated). -/
theorem update_records_check_characterization (cfg : Config) (now : Int)
    (client : Option Description → Option Description × Bool)
    (download : Description → Except Unit (String × Dir))
    (deleteOk renameOk writeOk : Bool) (fs : FS) (current : Option Description)
    (hAllow : isUpdateCheckAllowed cfg now (markerOf fs) = true)
    (hRead : readDatabaseDescription fs.active = .ok current) :
    (client current = (none, false) →
      (update cfg now client download deleteOk renameOk writeOk fs).recordedCheck = true ∧
      (update cfg now client download deleteOk renameOk writeOk fs).changed = false ∧
      (update cfg now client download deleteOk renameOk writeOk fs).err = none) ∧
    (client current = (none, true) →
      (update cfg now client download deleteOk renameOk writeOk fs).recordedCheck = false ∧
      (update cfg now client download deleteOk renameOk writeOk fs).changed = false ∧
      (update cfg now client download deleteOk renameOk writeOk fs).err = none) ∧
    (∀ upd b, client current = (some upd, b) → download upd = .error () →
      (update cfg now client download deleteOk renameOk writeOk fs).recordedCheck = false ∧
      (update cfg now client download deleteOk renameOk writeOk fs).changed = false ∧
      (update cfg now client download deleteOk renameOk writeOk fs).err =
        some .downloadFailed) ∧
    (∀ upd b p d e fsA, client current = (some upd, b) → download upd = .ok (p, d) →
      activate cfg deleteOk renameOk p d fs = (.error e, fsA) →
      (update cfg now client download deleteOk renameOk writeOk fs).recordedCheck = false ∧
      (update cfg now client download deleteOk renameOk writeOk fs).changed = false ∧
      (update cfg now client download deleteOk renameOk writeOk fs).err =
        some (.activateFailed e)) ∧
    (∀ upd b p d fsA, client current = (some upd, b) → download upd = .ok (p, d) →
      activate cfg deleteOk renameOk p d fs = (.ok (), fsA) →
      (update cfg now client download deleteOk renameOk writeOk fs).recordedCheck = true ∧
      (update cfg now client download deleteOk renameOk writeOk fs).changed = true ∧
      (update cfg now client download deleteOk renameOk writeOk fs).err = none ∧
      (update cfg now client download deleteOk renameOk writeOk fs).fs =
        setLastSuccessfulUpdateCheck writeOk now fsA) := by
  refine ⟨fun hcl => ?_, fun hcl => ?_, fun upd b hcl hdl => ?_,
    fun upd b p d e fsA hcl hdl hact => ?_, fun upd b p d fsA hcl hdl hact => ?_⟩
  · simp [update, hAllow, hRead, hcl]
  · simp [update, hAllow, hRead, hcl]
  · simp [update, hAllow, hRead, hcl, hdl]
  · simp [update, hAllow, hRead, hcl, hdl, hact]
  · simp [update, hAllow, hRead, hcl, hdl, hact]

/-- Witness for C5 at a concrete state: a well-formed active artifact, the
throttle allowing (no marker), and a client that reports no candidate and no
error, so the check is recorded and (false, nil) is returned. -/
theorem update_records_check_characterization_witness :
    isUpdateCheckAllowed cfgW 0 (markerOf fsGood) = true ∧
    readDatabaseDescription fsGood.active = .ok (some descW) ∧
    clientW (some descW) = (none, false) ∧
    ((update cfgW 0 clientW downloadW true true true fsGood).recordedCheck = true ∧
     (update cfgW 0 clientW downloadW true true true fsGood).changed = false ∧
     (update cfgW 0 clientW downloadW true true true fsGood).err = none) :=
  ⟨rfl, rfl, rfl,
    (update_records_check_characterization cfgW 0 clientW downloadW true true true
      fsGood (some descW) rfl rfl).1 rfl⟩

/-- C6: with age validation enabled and MaxAllowedBuiltAge = D, ensureNotStale
applies a strict inequality on the age now - built: an artifact built exactly
at now - D is not stale, one built one nanosecond earlier is stale with an
error carrying both durations; with age validation disabled it always
returns ok. -/
theorem ensureNotStale_boundary (cfg : Config) (now D : Int) (m : Description) :
    (cfg.ValidateAge = false → ensureNotStale cfg now (some m) = .ok ()) ∧
    (cfg.ValidateAge = true → cfg.MaxAllowedBuiltAge = D →
      ((m.built = now - D → ensureNotStale cfg now (some m) = .ok ()) ∧
       (m.built = now - D - 1 →
        ensureNotStale cfg now (some m) = .error (.stale (D + 1) D)))) := by
  refine ⟨fun h => by simp [ensureNotStale, h], fun h hD => ⟨fun hb => ?_, fun hb => ?_⟩⟩
  · simp only [ensureNotStale, h, Bool.not_true, Bool.false_eq_true, if_false, hb, hD]
    rw [if_neg (by omega)]
  · simp only [ensureNotStale, h, Bool.not_true, Bool.false_eq_true, if_false, hb, hD]
    rw [if_pos (by omega)]
    have harith : now - (now - D - 1) = D + 1 := by omega
    rw [harith]

/-- Witness for C6 at D = 100: built at -100 is accepted, built at -101 is
rejected with both durations in the error; with validation disabled the
stale artifact is accepted. -/
theorem ensureNotStale_boundary_witness :
    ensureNotStale cfgW 0 (some ⟨-100, ⟨some 6⟩, "h1"⟩) = .ok () ∧
    ensureNotStale cfgW 0 (some ⟨-101, ⟨some 6⟩, "h1"⟩) = .error (.stale 101 100) ∧
    ensureNotStale ⟨"r", false, true, 100, 100⟩ 0 (some ⟨-101, ⟨some 6⟩, "h1"⟩) = .ok () :=
  ⟨((ensureNotStale_boundary cfgW 0 100 ⟨-100, ⟨some 6⟩, "h1"⟩).2 rfl rfl).1 rfl,
   by
    have h := ((ensureNotStale_boundary cfgW 0 100 ⟨-101, ⟨some 6⟩, "h1"⟩).2 rfl rfl).2
      (by norm_num)
    simpa using h,
   (ensureNotStale_boundary ⟨"r", false, true, 100, 100⟩ 0 100 ⟨-101, ⟨some 6⟩, "h1"⟩).1 rfl⟩

/-- C7: validateIntegrity fails naming the directory when the descriptor is
missing or undecodable; with checksum validation enabled, a payload hash
differing from the descriptor checksum fails with both the expected and
actual digest; an unmappable schema version (reported as 0, the Go zero
value) or one mapping to a model other than the supported one fails with an
unsupported-database-version error carrying both numbers; otherwise the
validated descriptor is returned. -/
theorem validateIntegrity_characterization (cfg : Config) (p : String)
    (od : Option Dir) :
    (readDatabaseDescription od = .error () →
      validateIntegrity cfg p od = .error (.metadataParse p)) ∧
    (readDatabaseDescription od = .ok none →
      validateIntegrity cfg p od = .error (.metadataNotFound p)) ∧
    (∀ m, readDatabaseDescription od = .ok (some m) →
      ((cfg.ValidateChecksum = true → ∀ actual,
          payloadHashOf od = .ok actual → actual ≠ m.checksum →
          validateIntegrity cfg p od =
            .error (.badChecksum (p ++ "/" ++ VulnerabilityDBFileName) m.checksum actual)) ∧
       (checksumCheck cfg p od m = .ok () →
         ((m.schemaVersion.model = none →
            validateIntegrity cfg p od = .error (.unsupportedVersion 0 ModelVersion)) ∧
          (∀ g, m.schemaVersion.model = some g → g ≠ ModelVersion →
            validateIntegrity cfg p od = .error (.unsupportedVersion g ModelVersion)) ∧
          (m.schemaVersion.model = some ModelVersion →
            validateIntegrity cfg p od = .ok m))))) := by
  refine ⟨fun h => by simp [validateIntegrity, h], fun h => by simp [validateIntegrity, h],
    fun m hm => ⟨fun hcs actual hph hne => ?_, fun hok => ⟨fun hmodel => ?_,
      fun g hmodel hne => ?_, fun hmodel => ?_⟩⟩⟩
  · simp [validateIntegrity, hm, checksumCheck, hcs, ValidateByHash, hph, hne]
  · simp [validateIntegrity, hm, hok, hmodel, ModelVersion]
  · simp [validateIntegrity, hm, hok, hmodel, hne]
  · simp [validateIntegrity, hm, hok, hmodel, ModelVersion]

/-- Witness for C7: the good directory validates to its descriptor; a
directory whose payload hash differs from the descriptor checksum fails with
both digests. -/
theorem validateIntegrity_characterization_witness :
    validateIntegrity cfgW "p" (some goodDir) = .ok descW ∧
    validateIntegrity cfgW "p" (some ⟨.ok descW, .ok "h2", .absent⟩) =
      .error (.badChecksum ("p" ++ "/" ++ VulnerabilityDBFileName) "h1" "h2") :=
  ⟨((validateIntegrity_characterization cfgW "p" (some goodDir)).2.2 descW rfl).2 rfl |>.2.2 rfl,
   ((validateIntegrity_characterization cfgW "p"
      (some ⟨.ok descW, .ok "h2", .absent⟩)).2.2 descW rfl).1 rfl "h2" rfl (by decide)⟩

/-- C8 counterexample: an Import call that fails at the unarchive step fails
after its temp staging directory was created, yet the staging directory is
not removed before Import returns. -/
theorem import_cleanup_counterexample :
    (Import cfgW true (Except.error ()) true true fsGood).err = some .unarchiveFailed ∧
    (Import cfgW true (Except.error ()) true true fsGood).tempCreated = true ∧
    (Import cfgW true (Except.error ()) true true fsGood).tempRemoved = false :=
  ⟨rfl, rfl, rfl⟩

/-- C8 amended: for every Import call whose activation of the staged
directory fails, the staging directory is removed before Import returns (an
unarchive failure instead leaves the created staging directory in place),
whereas an Update call never removes a staging directory, so a staged
download whose activation fails is left in place. -/
theorem import_removes_staging_on_activation_failure (cfg : Config)
    (deleteOk renameOk : Bool) (staged : Dir) (fs fsA : FS) (e : ActivateError)
    (hact : activate cfg deleteOk renameOk (importTempPath cfg) staged fs =
      (.error e, fsA)) :
    (Import cfg true (.ok staged) deleteOk renameOk fs).err =
      some (.activateFailed e) ∧
    (Import cfg true (.ok staged) deleteOk renameOk fs).tempCreated = true ∧
    (Import cfg true (.ok staged) deleteOk renameOk fs).tempRemoved = true ∧
    ∀ (now : Int) (client : Option Description → Option Description × Bool)
      (download : Description → Except Unit (String × Dir))
      (writeOk : Bool) (fs2 : FS),
      (update cfg now client download deleteOk renameOk writeOk fs2).stagedRemoved =
        false := by
  refine ⟨by simp [Import, hact], by simp [Import, hact], by simp [Import, hact], ?_⟩
  intro now client download writeOk fs2
  by_cases hA : isUpdateCheckAllowed cfg now (markerOf fs2) = true
  · rcases hR : readDatabaseDescription fs2.active with e1 | cur
    · simp [update, hA, hR]
    · rcases hc : client cur with ⟨_ | upd, b⟩
      · cases b <;> simp [update, hA, hR, hc]
      · rcases hd : download upd with u | ⟨p, d⟩
        · simp [update, hA, hR, hc, hd]
        · rcases hact2 : activate cfg deleteOk renameOk p d fs2 with ⟨r, fsB⟩
          rcases r with e2 | u <;> simp [update, hA, hR, hc, hd, hact2]
  · rw [Bool.not_eq_true] at hA
    simp [update, hA]

/-- Witness for the amended C8: an Import of a staged directory that fails
integrity validation removes the staging directory, while an Update call
reports no staging removal. -/
theorem import_removes_staging_on_activation_failure_witness :
    activate cfgW true true (importTempPath cfgW) badDir fsGood =
      (.error (.validation (.metadataNotFound (importTempPath cfgW))), fsGood) ∧
    (Import cfgW true (.ok badDir) true true fsGood).err =
      some (.activateFailed (.validation (.metadataNotFound (importTempPath cfgW)))) ∧
    (Import cfgW true (.ok badDir) true true fsGood).tempRemoved = true ∧
    (update cfgW 0 clientW downloadW true true true fsGood).stagedRemoved = false :=
  ⟨rfl,
   (import_removes_staging_on_activation_failure cfgW true true badDir fsGood fsGood
      _ rfl).1,
   (import_removes_staging_on_activation_failure cfgW true true badDir fsGood fsGood
      _ rfl).2.2.1,
   (import_removes_staging_on_activation_failure cfgW true true badDir fsGood fsGood
      _ rfl).2.2.2 0 clientW downloadW true fsGood⟩

/-- C9: a failed marker write never surfaces to Update's caller:
setLastSuccessfulUpdateCheck with a failing write leaves the state unchanged
and returns no error (it has no error channel at all), and Update with a
failing marker write returns exactly the same (changed, err) pair as the
same call with a succeeding write. -/
theorem update_marker_write_failure_swallowed (cfg : Config) (now : Int)
    (client : Option Description → Option Description × Bool)
    (download : Description → Except Unit (String × Dir))
    (deleteOk renameOk : Bool) (fs : FS) :
    setLastSuccessfulUpdateCheck false now fs = fs ∧
    (update cfg now client download deleteOk renameOk false fs).changed =
      (update cfg now client download deleteOk renameOk true fs).changed ∧
    (update cfg now client download deleteOk renameOk false fs).err =
      (update cfg now client download deleteOk renameOk true fs).err := by
  obtain ⟨a⟩ := fs
  have hset : setLastSuccessfulUpdateCheck false now ⟨a⟩ = ⟨a⟩ := by
    cases a <;> rfl
  refine ⟨hset, ?_⟩
  by_cases hA : isUpdateCheckAllowed cfg now (markerOf ⟨a⟩) = true
  · rcases hR : readDatabaseDescription (FS.mk a).active with e1 | cur
    · simp [update, hA, hR]
    · rcases hc : client cur with ⟨_ | upd, b⟩
      · cases b <;> simp [update, hA, hR, hc]
      · rcases hd : download upd with u | ⟨p, d⟩
        · simp [update, hA, hR, hc, hd]
        · rcases hact : activate cfg deleteOk renameOk p d ⟨a⟩ with ⟨r, fsB⟩
          rcases r with e2 | u <;> simp [update, hA, hR, hc, hd, hact]
  · rw [Bool.not_eq_true] at hA
    simp [update, hA]

/-- C10: an absent descriptor file yields a nil descriptor and a nil error
(absence is distinguished from a decode failure), and Update on a fresh root
(no active directory) does not fail at the current-descriptor read step: it
invokes the client's IsUpdateAvailable with a nil current descriptor. -/
theorem readDatabaseDescription_absent_first_install (cfg : Config) (now : Int)
    (client : Option Description → Option Description × Bool)
    (download : Description → Except Unit (String × Dir))
    (deleteOk renameOk writeOk : Bool) (ph : Except Unit String) (mk : MarkerFile) :
    readDatabaseDescription none = .ok none ∧
    readDatabaseDescription (some ⟨.absent, ph, mk⟩) = .ok none ∧
    (update cfg now client download deleteOk renameOk writeOk ⟨none⟩).currentPassed =
      some none ∧
    (update cfg now client download deleteOk renameOk writeOk ⟨none⟩).err ≠
      some .readCurrentFailed := by
  have hA : isUpdateCheckAllowed cfg now (markerOf (⟨none⟩ : FS)) = true := by
    simp [isUpdateCheckAllowed, durationSinceUpdateCheck, markerOf]
  have key :
      (update cfg now client download deleteOk renameOk writeOk ⟨none⟩).currentPassed =
        some none ∧
      (update cfg now client download deleteOk renameOk writeOk ⟨none⟩).err ≠
        some .readCurrentFailed := by
    rcases hc : client none with ⟨_ | upd, b⟩
    · cases b <;> simp [update, hA, readDatabaseDescription, hc]
    · rcases hd : download upd with u | ⟨p, d⟩
      · simp [update, hA, readDatabaseDescription, hc, hd]
      · rcases hact : activate cfg deleteOk renameOk p d ⟨none⟩ with ⟨r, fsB⟩
        rcases r with e2 | u <;>
          simp [update, hA, readDatabaseDescription, hc, hd, hact]
  exact ⟨rfl, rfl, key.1, key.2⟩

end Grype
